import Mathlib

/-!
Verification development for the ADArena attack-defense CTF platform.

Shallow embedding of the backend's core logic:
* the aggregate-status derivation (`backend/lib/repositories/teamtasks.py`),
* the CHECK/PUT/GET worker actions (`backend/workers/actions/*.py`),
* the flag-submission pipeline (`backend/lib/repositories/attacks.py`),
* the round ticker (`backend/workers/ticker.py`) and the per-round job
  submitter (`backend/workers/job_submitter.py`).

SQL `UPDATE ... SET` statements are modelled as pure functions on a row
record.  Column references appearing inside the SET expressions (as produced
by `get_status_update_expression()` / `get_message_update_expression()`)
evaluate against the *pre-update* row, which is the semantics of SQL: every
expression on the right-hand side of SET reads the old values of the row.
-/

namespace ADArena

/-! ## Aggregate status derivation (`lib/repositories/teamtasks.py`) -/

/-- `compute_overall_status` from `lib/repositories/teamtasks.py`:
first-match derivation of the aggregate status and public message from the
three per-action statuses. -/
def compute_overall_status (check_status put_status get_status : Int) : Int × String :=
  if check_status = 110 then (110, "Service check failed")
  else if check_status = 104 then (104, "Service is down")
  else if check_status = -1 then (-1, "Not checked yet")
  else if put_status = 110 then (102, "Service corrupted (PUT failed)")
  else if put_status = 104 then (102, "Service corrupted (PUT unreachable)")
  else if get_status = 110 then (103, "Service mumble (GET failed)")
  else if get_status = 104 then (103, "Service mumble (GET unreachable)")
  else (101, "Service operational")

/-- A `teamtasks` row (`lib/models/teamtask.py`), restricted to the columns
the worker actions read or write. -/
structure TeamTask where
  check_status : Int := -1
  check_message : String := ""
  check_private : String := ""
  check_attempts : Int := 0
  put_status : Int := -1
  put_message : String := ""
  put_private : String := ""
  put_attempts : Int := 0
  get_status : Int := -1
  get_message : String := ""
  get_private : String := ""
  get_attempts : Int := 0
  stolen : Int := 0
  lost : Int := 0
  score : Rat := 0
  checks : Int := 0
  checks_passed : Int := 0
  status : Int := -1
  public_message : String := ""
  private_message : String := ""
  deriving Repr, DecidableEq

/-- `get_status_update_expression()` rendered inside an UPDATE: the SQL CASE
over `TeamTask.check_status` / `put_status` / `get_status` column references,
which evaluate against the pre-update row `tt`. -/
def statusCaseExpr (tt : TeamTask) : Int :=
  if tt.check_status = 110 then 110
  else if tt.check_status = 104 then 104
  else if tt.check_status = -1 then -1
  else if tt.put_status = 110 then 102
  else if tt.put_status = 104 then 102
  else if tt.get_status = 110 then 103
  else if tt.get_status = 104 then 103
  else 101

/-- `get_message_update_expression()` rendered inside an UPDATE (pre-update
row semantics, as for `statusCaseExpr`). -/
def messageCaseExpr (tt : TeamTask) : String :=
  if tt.check_status = 110 then "Service check failed"
  else if tt.check_status = 104 then "Service is down"
  else if tt.check_status = -1 then "Not checked yet"
  else if tt.put_status = 110 then "Service corrupted (PUT failed)"
  else if tt.put_status = 104 then "Service corrupted (PUT unreachable)"
  else if tt.get_status = 110 then "Service mumble (GET failed)"
  else if tt.get_status = 104 then "Service mumble (GET unreachable)"
  else "Service operational"

/-! ## CHECK action database update (`workers/actions/check.py`) -/

/-- The single UPDATE statement executed by `check_action` on success.
`statusCode` is `get_status_code(verdict.status.name)` (a Python-level
constant in the statement), while `status` / `public_message` are computed by
the SQL CASE over the pre-update row. -/
def check_update (tt : TeamTask) (statusCode : Int) (publicMsg privateMsg : String) :
    TeamTask :=
  { tt with
    check_status := statusCode
    check_message := publicMsg.take 500
    check_private := privateMsg.take 2000
    check_attempts := tt.check_attempts + 1
    checks := tt.checks + 1
    checks_passed := if statusCode = 101 then tt.checks_passed + 1 else tt.checks_passed
    status := statusCaseExpr tt
    public_message := messageCaseExpr tt
    private_message := if statusCode ≠ 101 then privateMsg.take 1000 else tt.private_message }

/-- `update_teamtask_skipped` (`workers/actions/helpers.py`) for the PUT
action: inherit the failing CHECK code into `put_status`, bump
`put_attempts`, and recompute the aggregate via the SQL CASE. -/
def put_skip_update (tt : TeamTask) (statusCode : Int) (message : String) : TeamTask :=
  { tt with
    put_status := statusCode
    put_message := message
    put_attempts := tt.put_attempts + 1
    status := statusCaseExpr tt
    public_message := messageCaseExpr tt }

/-- The UPDATE executed by `put_action` after a successful checker run. -/
def put_update (tt : TeamTask) (statusCode : Int) (publicMsg privateMsg : String) :
    TeamTask :=
  { tt with
    put_status := statusCode
    put_message := publicMsg.take 500
    put_private := privateMsg.take 2000
    put_attempts := tt.put_attempts + 1
    status := statusCaseExpr tt
    public_message := messageCaseExpr tt }

/-- A freshly initialized `teamtasks` row: all per-action statuses `-1`,
counters zero (column defaults in `lib/models/teamtask.py`). -/
def freshTeamTask : TeamTask := {}

/-! ## PUT action (`workers/actions/put.py`) -/

/-- Lower-case hex digit, as produced by Python's `bytes.hex()` /
`secrets.token_hex`. -/
def hexDigitChar (n : Nat) : Char :=
  if n < 10 then Char.ofNat (48 + n) else Char.ofNat (87 + n)

/-- The character list of `bytes(bs).hex()`: two lower-case hex digits per
byte, high nibble first. -/
def hexChars (bs : List (Fin 256)) : List Char :=
  bs.flatMap (fun b => [hexDigitChar (b.val / 16), hexDigitChar (b.val % 16)])

/-- `secrets.token_hex` applied to the random byte draw `bs`. -/
def tokenHex (bs : List (Fin 256)) : String :=
  String.mk (hexChars bs)

/-- `secrets.choice(range(1, places + 1))`, with `r` the random draw:
some member of `{1, ..., places}` (requires `places ≥ 1`, as the Task data
model guarantees). -/
def choicePlace (places : Nat) (r : Nat) : Nat :=
  1 + r % places

/-- A row of the `flags` table as created by `put_action`
(`lib/models/flag.py`). -/
structure FlagRow where
  id : Int
  flag : String
  team_id : Int
  task_id : Int
  round : Int
  public_flag_data : String
  private_flag_data : String
  vuln_number : Int
  deriving Repr, DecidableEq

/-- The checker's verdict, reduced to the status name and the two messages
(`lib/models/types.py`, `CheckerVerdict`). -/
structure CheckerVerdict where
  statusName : String
  publicMsg : String
  privateMsg : String
  deriving Repr, DecidableEq

/-- `get_status_code` from `workers/actions/helpers.py`. -/
def get_status_code (statusName : String) : Int :=
  if statusName = "OK" then 101
  else if statusName = "UP" then 101
  else if statusName = "CORRUPT" then 102
  else if statusName = "MUMBLE" then 103
  else if statusName = "DOWN" then 104
  else if statusName = "CHECK_FAILED" then 110
  else 110

/-- The dictionary `put_action` returns. -/
structure PutResult where
  status : String
  publicMsg : String
  privateMsg : String
  flag : Option String
  deriving Repr, DecidableEq

/-- Full outcome of one `put_action` run: the returned dictionary, the
committed `teamtasks` row, the `flags` row inserted (if any), and whether
the external checker subprocess was invoked. -/
structure PutOutcome where
  result : PutResult
  tt : TeamTask
  createdFlag : Option FlagRow
  ranChecker : Bool
  deriving Repr, DecidableEq

/-- `put_action` (`workers/actions/put.py`), exception-free paths.

`checkStatus` is the value returned by `wait_for_check_completion`
(`none` when both the pub/sub wait and the DB-polling fallback timed out).
The Python guard is `if check_status in [110, 104]`, so `None` does NOT
match and the action proceeds to generate a flag and run the checker.

Randomness is made explicit: `rPlace` drives `secrets.choice`,
`bytes16`/`bytes32` are the `secrets.token_hex` byte draws.  `newFlagId` is
the primary key assigned by the database on flush.  `verdict` is the
checker subprocess verdict. -/
def put_action (checkStatus : Option Int) (tt : TeamTask) (team_id task_id : Int)
    (current_round : Int) (places : Nat) (rPlace : Nat)
    (bytes16 bytes32 : List (Fin 256)) (newFlagId : Int)
    (verdict : CheckerVerdict) : PutOutcome :=
  if checkStatus = some 110 ∨ checkStatus = some 104 then
    let code := checkStatus.getD 0
    { result :=
        { status := "SKIPPED"
          publicMsg := "Service down, PUT skipped"
          privateMsg := "CHECK status: " ++ toString code
          flag := none }
      tt := put_skip_update tt code "Skipped: CHECK failed"
      createdFlag := none
      ranChecker := false }
  else
    let flag_str := "FLAG" ++ tokenHex bytes16
    let flagRow : FlagRow :=
      { id := newFlagId
        flag := flag_str
        team_id := team_id
        task_id := task_id
        round := current_round
        public_flag_data := toString (choicePlace places rPlace)
        private_flag_data := tokenHex bytes32
        vuln_number := 1 }
    let statusCode := get_status_code verdict.statusName
    { result :=
        { status := verdict.statusName
          publicMsg := verdict.publicMsg
          privateMsg := verdict.privateMsg
          flag := some flag_str }
      tt := put_update tt statusCode verdict.publicMsg verdict.privateMsg
      createdFlag := some flagRow
      ranChecker := true }

/-! ## Flag submission pipeline (`lib/repositories/attacks.py`) -/

/-- The flag-metadata JSON cached under `flag:str:{flag}` by `cache_flag`
(`lib/repositories/flags.py`), as read back by `get_flag_by_str`. -/
structure CachedFlag where
  id : Int
  team_id : Int
  task_id : Int
  flag : String
  round : Int
  public_flag_data : String
  deriving Repr, DecidableEq

/-- Game configuration fields consumed by `handle_attack`, plus the flag
cache (`get_flag_by_str` reads ONLY this k/v cache — there is no fallback to
the authoritative `flags` table). -/
structure AttackEnv where
  current_round : Int
  max_round : Int
  flag_lifetime : Int
  volga_attacks_mode : Bool
  cache : String → Option CachedFlag

/-- Database state visible to the submission pipeline: the `teamtasks`
rows keyed by `(team_id, task_id)`, the `stolenflags` pairs
`(flag_id, attacker_id)`, and the authoritative `flags` table (which
`handle_attack` never consults). -/
structure AttackDB where
  teamtasks : List ((Int × Int) × TeamTask)
  stolenPairs : List (Int × Int)
  flags : List FlagRow

/-- `get_teamtask` (`lib/repositories/teamtasks.py`): the row for
`(team_id, task_id)`, if present. -/
def db_get_teamtask (db : AttackDB) (team_id task_id : Int) : Option TeamTask :=
  (db.teamtasks.find? (fun p => p.1 == (team_id, task_id))).map (·.2)

/-- The Volga-mode guard in `handle_attack`:
`if not team_task or team_task.status != TaskStatus.UP.value`. -/
def volga_blocked (db : AttackDB) (attacker_id task_id : Int) : Bool :=
  match db_get_teamtask db attacker_id task_id with
  | none => true
  | some tt => tt.status != 101

/-- The result dictionary built by `handle_attack`. -/
structure AttackResult where
  submit_ok : Bool
  message : String
  attacker_id : Int
  victim_id : Option Int
  task_id : Option Int
  attacker_delta : Rat
  victim_delta : Rat
  deriving Repr, DecidableEq

/-- The message of the `AttributeError` raised by the duplicate-submission
query in `handle_attack`: it builds `select(func.count(StolenFlag.id))`, but
the `StolenFlag` model (`lib/models/flag.py`) has no `id` column — its
primary key is the composite `(flag_id, attacker_id)`.  Python raises
`AttributeError: type object 'StolenFlag' has no attribute 'id'`, which the
generic `except Exception` handler formats as `"Internal error: ..."`. -/
def stolenFlagIdError : String := "type object 'StolenFlag' has no attribute 'id'"

/-- `handle_attack` (`lib/repositories/attacks.py`): processes a single
submitted flag string, returning the result dictionary and the database
state after commit/rollback.

The pipeline runs, in source order: the `current_round == -1` guard, the
game-finished guard (`if max_round and current_round > max_round` — Python
truthiness, so `max_round ≠ 0`), the cache lookup, the own-flag check, the
freshness check, the Volga-mode check, then the duplicate-`StolenFlag`
query.  That query references the nonexistent attribute `StolenFlag.id`, so
every execution reaching it raises `AttributeError`, is caught by the
generic handler, rolls back, and returns `"Internal error: ..."` — the
stored-procedure scoring path below it is unreachable. -/
def handle_attack (env : AttackEnv) (db : AttackDB) (attacker_id : Int)
    (flag_str : String) : AttackResult × AttackDB :=
  let base : AttackResult :=
    { submit_ok := false, message := "", attacker_id := attacker_id,
      victim_id := none, task_id := none, attacker_delta := 0, victim_delta := 0 }
  if env.current_round = -1 then
    ({ base with message := "Game is not available." }, db)
  else if env.max_round ≠ 0 ∧ env.current_round > env.max_round then
    ({ base with message := "Game has finished. No more flags accepted." }, db)
  else
    match env.cache flag_str with
    | none => ({ base with message := "Flag is invalid or too old." }, db)
    | some fd =>
      if fd.team_id = attacker_id then
        ({ base with message := "Flag is your own" }, db)
      else if env.current_round - fd.round > env.flag_lifetime then
        ({ base with message := "Flag is too old" }, db)
      else if env.volga_attacks_mode ∧ volga_blocked db attacker_id fd.task_id then
        ({ base with message := "Cannot submit flags while service is down" }, db)
      else
        ({ base with message := "Internal error: " ++ stolenFlagIdError }, db)

/-- The per-request loop of `submit_flags` (`api/submissions.py`): each flag
is processed sequentially; a failure for one flag never stops the remaining
flags.  Responses are `"[<flag>] <message>"` in input order. -/
def process_flags (env : AttackEnv) (attacker_id : Int) :
    List String → AttackDB → List String × AttackDB
  | [], db => ([], db)
  | f :: rest, db =>
    let (res, db') := handle_attack env db attacker_id f
    let (msgs, db'') := process_flags env attacker_id rest db'
    (("[" ++ f ++ "] " ++ res.message) :: msgs, db'')

/-! ## Job submitter (`workers/job_submitter.py`) -/

/-- A job on the arq queue. -/
inductive Job where
  | check (team task round : Int)
  | put (team task round : Int)
  | get (team task round flagId : Int)
  deriving Repr, DecidableEq

/-- A `teams` row, restricted to what the submitter uses. -/
structure TeamRow where
  id : Int
  active : Bool
  deriving Repr, DecidableEq

/-- A `tasks` row, restricted to what the submitter uses. -/
structure TaskRow where
  id : Int
  puts : Nat
  gets : Nat
  active : Bool
  deriving Repr, DecidableEq

/-- The WHERE clause of `get_random_round_flag` (`lib/repositories/flags.py`)
when called with `from_round`/`current_round`: flags of the (team, task)
pair whose round lies in `[from_round, current_round]`. -/
def round_flag_candidates (flags : List FlagRow) (team_id task_id : Int)
    (from_round current_round : Int) : List FlagRow :=
  flags.filter (fun f =>
    f.team_id == team_id && f.task_id == task_id &&
    decide (from_round ≤ f.round) && decide (f.round ≤ current_round))

/-- `get_random_round_flag`: `ORDER BY random() LIMIT 1` modelled as picking
the element at a random index `r` of the candidate list (`none` exactly when
no candidate exists). -/
def get_random_round_flag (flags : List FlagRow) (team_id task_id : Int)
    (from_round current_round : Int) (r : Nat) : Option FlagRow :=
  let cands := round_flag_candidates flags team_id task_id from_round current_round
  cands.get? (r % cands.length)

/-- The `for _ in range(task.gets)` loop of `submit_round_jobs`, iterating
over the remaining draw indices `l`.  Each iteration calls
`get_random_round_flag`, which returns `result.scalar_one_or_none()` — an
Optional `Flag` ORM entity, not a dict.  When a flag is found the code runs
`submit_get_job(team.id, task.id, current_round, flag_data['id'])`: the
subscript `flag_data['id']` on the ORM entity (no model defines
`__getitem__`) raises `TypeError: 'Flag' object is not subscriptable`
*before* `submit_get_job` can be awaited, so no GET job is enqueued and the
loop aborts with the exception.  When no candidate exists the iteration
skips cleanly.  Returns the GET jobs enqueued (necessarily none) and
whether the `TypeError` escaped the loop. -/
def gets_loop (flags : List FlagRow) (flag_lifetime current_round : Int)
    (rand : Int → Int → Nat → Nat) (team_id task_id : Int) :
    List Nat → List Job × Bool
  | [] => ([], false)
  | i :: rest =>
    match get_random_round_flag flags team_id task_id
        (max 1 (current_round - flag_lifetime)) current_round
        (rand team_id task_id i) with
    | some _ => ([], true)
    | none => gets_loop flags flag_lifetime current_round rand team_id task_id rest

/-- The `try` body of the per-(team, task) loop of `submit_round_jobs`:
one CHECK job, `task.puts` PUT jobs (both awaited before the GET loop
starts), then the GET loop.  Returns the jobs enqueued for the pair and
whether the pair's `except Exception` handler fired (the `TypeError` from
the GET loop). -/
def pair_jobs (flags : List FlagRow) (flag_lifetime current_round : Int)
    (rand : Int → Int → Nat → Nat) (tm : TeamRow) (tk : TaskRow) :
    List Job × Bool :=
  let g := gets_loop flags flag_lifetime current_round rand tm.id tk.id
    (List.range tk.gets)
  (Job.check tm.id tk.id current_round ::
    (List.replicate tk.puts (Job.put tm.id tk.id current_round) ++ g.1), g.2)

/-- `submit_round_jobs` (`workers/job_submitter.py`): for every active team
and active task, run the pair's `try` body.  Returns all enqueued jobs and
the `stats["errors"]` counter (one per pair whose handler fired). -/
def submit_round_jobs (teams : List TeamRow) (tasks : List TaskRow)
    (flags : List FlagRow) (flag_lifetime current_round : Int)
    (rand : Int → Int → Nat → Nat) : List Job × Nat :=
  ((teams.filter (·.active)).flatMap (fun tm =>
      (tasks.filter (·.active)).flatMap (fun tk =>
        (pair_jobs flags flag_lifetime current_round rand tm tk).1)),
   ((teams.filter (·.active)).flatMap (fun tm =>
      (tasks.filter (·.active)).filter (fun tk =>
        (pair_jobs flags flag_lifetime current_round rand tm tk).2))).length)

/-- Recognizer for GET jobs of a given (team, task) pair. -/
def isGetFor (team task : Int) : Job → Bool
  | Job.get t k _ _ => t == team && k == task
  | _ => false

/-! ## Round ticker (`workers/ticker.py`) -/

/-- Persistent state touched by `TickerService.process_round`: the
`real_round` counter, the round for which the `game_state` snapshot was last
rebuilt, the job queue, and the rounds for which TeamTaskLog snapshots were
appended. -/
structure TickerDB where
  real_round : Int
  gameStateRound : Int
  jobs : List Job
  historyRounds : List Int
  teams : List TeamRow
  tasks : List TaskRow
  flags : List FlagRow

/-- `TickerService.process_round`.  With `r` the current `real_round`:

* finished branch (`if max_round and current_round > max_round`): calls
  `update_round(db, current_round)` — which sets `real_round := r + 1` —
  and `update_game_state(db, current_round)` (snapshot for round `r`), then
  returns; nothing is enqueued or logged, but the round counter still
  advances;
* otherwise: `update_round` (`real_round := r + 1`), `update_game_state`
  for `r + 1`, TeamTaskLog snapshots for round `r`, and
  `submit_round_jobs` for round `r + 1`. -/
def process_round (max_round flag_lifetime : Int)
    (rand : Int → Int → Nat → Nat) (s : TickerDB) : TickerDB :=
  let r := s.real_round
  if max_round ≠ 0 ∧ r > max_round then
    { s with real_round := r + 1, gameStateRound := r }
  else
    { s with
      real_round := r + 1
      gameStateRound := r + 1
      historyRounds := s.historyRounds ++ [r]
      jobs := s.jobs ++
        (submit_round_jobs s.teams s.tasks s.flags flag_lifetime (r + 1) rand).1 }

/-- `TickerService.initialize` loads `self.last_round_check` from the
persisted `ScheduleHistory.rounds` row (`get_last_run('rounds')`). -/
def initialize_last_round_check (persistedRounds : Option Int) : Option Int :=
  persistedRounds

/-- `next_round_time` as computed in `TickerService.check_round_tick`:
`last_round_check + round_interval`, bootstrapping from
`start_time + round_interval`. -/
def next_round_time (start_time round_interval : Int)
    (last_round_check : Option Int) : Int :=
  match last_round_check with
  | some t => t + round_interval
  | none => start_time + round_interval

/-- Whether `check_round_tick` executes `process_round` at instant `now`:
it returns early unless the game has started and `now ≥ next_round_time`. -/
def check_round_tick_fires (game_started : Bool) (now start_time round_interval : Int)
    (last_round_check : Option Int) : Bool :=
  game_started && decide (next_round_time start_time round_interval last_round_check ≤ now)

/-! ## CHECK action control flow (`workers/actions/check.py`) -/

/-- Observable effects of one `check_action` execution, in program order. -/
inductive CheckEvent where
  | dbCheckUpdate (code : Int)
  | dbErrorUpdate (code : Int)
  | dbCommit
  | dbRollback
  | sessionClose
  | signalCheckComplete (code : Int)
  | recordActionResult (code : Int)
  deriving Repr, DecidableEq

/-- The three control-flow outcomes of `check_action`: the checker ran and
the UPDATE committed; an exception was caught and `update_teamtask_error`
succeeded; an exception was caught and `update_teamtask_error` itself
raised (swallowed by the inner `try`/`except`). -/
inductive CheckOutcome where
  | ok (verdict : CheckerVerdict)
  | errorCaught (errMsg : String)
  | errorUpdateFailed (errMsg : String)
  deriving Repr, DecidableEq

/-- The event trace of `check_action` for each outcome.  The
`async with session_factory() as db` block closes the session before the
code below it runs; `signal_check_complete` and `record_action_to_monitor`
sit after the block on every path, with `status_code = 110` on the
exception paths. -/
def check_action_trace : CheckOutcome → List CheckEvent
  | .ok v =>
    [.dbCheckUpdate (get_status_code v.statusName), .dbCommit, .sessionClose,
     .signalCheckComplete (get_status_code v.statusName),
     .recordActionResult (get_status_code v.statusName)]
  | .errorCaught _ =>
    [.dbRollback, .dbErrorUpdate 110, .dbCommit, .sessionClose,
     .signalCheckComplete 110, .recordActionResult 110]
  | .errorUpdateFailed _ =>
    [.dbRollback, .sessionClose, .signalCheckComplete 110, .recordActionResult 110]

/-- The status codes signalled via the coordinator in a trace. -/
def signalCodes (tr : List CheckEvent) : List Int :=
  tr.filterMap (fun e => match e with
    | .signalCheckComplete c => some c
    | _ => none)

/-- The status codes recorded as action results in a trace. -/
def recordCodes (tr : List CheckEvent) : List Int :=
  tr.filterMap (fun e => match e with
    | .recordActionResult c => some c
    | _ => none)

/-- `true` when no completion signal occurs before the first session
close in the trace. -/
def noSignalBeforeClose (tr : List CheckEvent) : Bool :=
  ((tr.takeWhile (fun e => !(e == CheckEvent.sessionClose))).filter
    (fun e => match e with
      | .signalCheckComplete _ => true
      | _ => false)).isEmpty

/-- The status code `check_action` is expected to signal for each outcome:
the mapped checker verdict on success, `110` on the exception paths. -/
def checkSignalledCode : CheckOutcome → Int
  | .ok v => get_status_code v.statusName
  | .errorCaught _ => 110
  | .errorUpdateFailed _ => 110

/-- Lower-case hexadecimal digit test. -/
def isHexChar (c : Char) : Bool :=
  ("0123456789abcdef".toList).contains c

/-- The spec's flag format (§3 / §4.2 PUT): the configured `flag_prefix`
followed by exactly 32 hexadecimal characters.  Stated from the claim's
words; used only to compare against the flags the code generates. -/
def spec_flag_format (pfx flagStr : String) : Bool :=
  let p := pfx.toList
  let f := flagStr.toList
  (f.take p.length == p) && ((f.drop p.length).length == 32)
    && (f.drop p.length).all isHexChar

/-! ## Theorems -/

/-- The CASE expressions agree with `compute_overall_status` when fed the
same three statuses. -/
theorem caseExpr_eq_compute (tt : TeamTask) :
    (statusCaseExpr tt, messageCaseExpr tt)
      = compute_overall_status tt.check_status tt.put_status tt.get_status := by
  unfold statusCaseExpr messageCaseExpr compute_overall_status
  repeat' split
  all_goals simp_all

/-- C1: the aggregate `status` and `public_message` equal the §4.2
derivation applied to the row's post-update per-action statuses, after any
CHECK/PUT/GET update.  This FAILS: the SQL CASE in the same UPDATE reads the
pre-update `check_status`/`put_status`/`get_status` columns.  On a fresh row
whose CHECK resolves DOWN (104), the committed row has `check_status = 104`
but `status = -1` / "Not checked yet", while the derivation demands
`104` / "Service is down". -/
theorem c1_aggregate_status_stale :
    (check_update freshTeamTask 104 "check failed" "timeout").check_status = 104 ∧
    (check_update freshTeamTask 104 "check failed" "timeout").status = -1 ∧
    (check_update freshTeamTask 104 "check failed" "timeout").public_message
      = "Not checked yet" ∧
    compute_overall_status
        (check_update freshTeamTask 104 "check failed" "timeout").check_status
        (check_update freshTeamTask 104 "check failed" "timeout").put_status
        (check_update freshTeamTask 104 "check failed" "timeout").get_status
      = (104, "Service is down") ∧
    (check_update freshTeamTask 104 "check failed" "timeout").status ≠
      (compute_overall_status
        (check_update freshTeamTask 104 "check failed" "timeout").check_status
        (check_update freshTeamTask 104 "check failed" "timeout").put_status
        (check_update freshTeamTask 104 "check failed" "timeout").get_status).1 := by
  refine ⟨rfl, rfl, rfl, rfl, ?_⟩
  decide

/-- C2: the validation pipeline runs in the claimed order with the claimed
messages, ending in the duplicate-StolenFlag check and then the scoring
procedure.  This FAILS at the duplicate check: the query references
`StolenFlag.id`, an attribute the model does not have, so every submission
that passes the first five steps returns
`"Internal error: type object 'StolenFlag' has no attribute 'id'"` and the
scoring procedure is unreachable.  (Subsequent flags in the request do keep
processing.)  Failing input: attacker 1 submits a fresh, valid flag of
team 2 planted in round 2 at current round 2. -/
theorem c2_duplicate_check_crashes :
    let env : AttackEnv :=
      { current_round := 2, max_round := 0, flag_lifetime := 5,
        volga_attacks_mode := false,
        cache := fun s =>
          if s = "FLAG00" then
            some { id := 7, team_id := 2, task_id := 1, flag := "FLAG00",
                   round := 2, public_flag_data := "1" }
          else none }
    let db : AttackDB := { teamtasks := [], stolenPairs := [], flags := [] }
    (handle_attack env db 1 "FLAG00").1.message = "Internal error: " ++ stolenFlagIdError ∧
    (handle_attack env db 1 "FLAG00").1.submit_ok = false ∧
    (handle_attack env db 1 "FLAG00").2.stolenPairs = [] ∧
    (process_flags env 1 ["FLAG00", "BOGUS"] db).1 =
      ["[FLAG00] Internal error: " ++ stolenFlagIdError,
       "[BOGUS] Flag is invalid or too old."] := by
  exact ⟨rfl, rfl, rfl, rfl⟩

/-- C3: resubmitting an already-stolen flag returns "Flag already stolen"
and changes nothing.  The state-unchanged half holds (the handler rolls
back), but the message is wrong: the duplicate check raises
`AttributeError` before it can compare, so the attacker sees
`"Internal error: type object 'StolenFlag' has no attribute 'id'"`.
Failing input: attacker 1 resubmits flag 7 (team 2's flag, already in
`stolenflags` as `(7, 1)`). -/
theorem c3_resubmission_message_wrong :
    let env : AttackEnv :=
      { current_round := 2, max_round := 0, flag_lifetime := 5,
        volga_attacks_mode := false,
        cache := fun s =>
          if s = "FLAG00" then
            some { id := 7, team_id := 2, task_id := 1, flag := "FLAG00",
                   round := 2, public_flag_data := "1" }
          else none }
    let db : AttackDB :=
      { teamtasks := [((1, 1), { freshTeamTask with stolen := 3, score := 100 })],
        stolenPairs := [(7, 1)], flags := [] }
    (handle_attack env db 1 "FLAG00").1.message = "Internal error: " ++ stolenFlagIdError ∧
    (handle_attack env db 1 "FLAG00").1.message ≠ "Flag already stolen" ∧
    (handle_attack env db 1 "FLAG00").1.submit_ok = false ∧
    (handle_attack env db 1 "FLAG00").2.teamtasks = db.teamtasks ∧
    (handle_attack env db 1 "FLAG00").2.stolenPairs = db.stolenPairs := by
  refine ⟨rfl, ?_, rfl, rfl, rfl⟩
  decide

/-- C7 counterexample: once `real_round > max_round > 0`, the claim says
the next Process-Round advances `real_round` exactly once more and then no
further advance ever occurs.  In the code the finished branch still calls
`update_round`, so every subsequent tick advances again: starting from
`real_round = 3` with `max_round = 2`, two consecutive `process_round`
calls yield 4 and then 5. -/
theorem c7_round_keeps_advancing :
    let s0 : TickerDB :=
      { real_round := 3, gameStateRound := 0, jobs := [], historyRounds := [],
        teams := [], tasks := [], flags := [] }
    let s1 := process_round 2 5 (fun _ _ _ => 0) s0
    let s2 := process_round 2 5 (fun _ _ _ => 0) s1
    s1.real_round = 4 ∧ s2.real_round = 5 ∧ s2.real_round ≠ s1.real_round := by
  refine ⟨rfl, rfl, ?_⟩
  decide

/-- C7 amended: in the finished state (`max_round > 0` and
`real_round > max_round`) every `process_round` call advances `real_round`
by exactly one and refreshes the `game_state` snapshot (for the pre-advance
round), enqueuing no jobs and logging no history — round advances never
halt. -/
theorem c7_finished_round_behaviour (max_round flag_lifetime : Int)
    (rand : Int → Int → Nat → Nat) (s : TickerDB)
    (hpos : 0 < max_round) (hgt : max_round < s.real_round) :
    process_round max_round flag_lifetime rand s =
      { s with real_round := s.real_round + 1, gameStateRound := s.real_round } := by
  unfold process_round
  rw [if_pos ⟨by omega, hgt⟩]

/-- Witness for `c7_finished_round_behaviour` at `max_round = 2`,
`real_round = 3`. -/
theorem c7_finished_round_behaviour_witness :
    process_round 2 5 (fun _ _ _ => 0)
        { real_round := 3, gameStateRound := 0, jobs := [], historyRounds := [],
          teams := [], tasks := [], flags := [] } =
      { real_round := 4, gameStateRound := 3, jobs := [], historyRounds := [],
        teams := [], tasks := [], flags := [] } :=
  c7_finished_round_behaviour 2 5 (fun _ _ _ => 0)
    { real_round := 3, gameStateRound := 0, jobs := [], historyRounds := [],
      teams := [], tasks := [], flags := [] } (by decide) (by decide)

/-- C8: after a restart that loads the persisted advance instant `t` from
`ScheduleHistory.rounds`, `check_round_tick` fires exactly when
`now ≥ t + round_time`: no second advance can occur before `t + round_time`,
and the next advance fires once that instant is reached. -/
theorem c8_no_double_advance_after_restart (t round_time start_time now : Int) :
    check_round_tick_fires true now start_time round_time
        (initialize_last_round_check (some t)) = true ↔ t + round_time ≤ now := by
  simp [check_round_tick_fires, initialize_last_round_check, next_round_time]

/-- C9 counterexample: the claim says a cold flag cache behaves like a warm
one for flags present in the authoritative table.  It does not:
`get_flag_by_str` reads only the cache, so with the same authoritative
`flags` row, the warm cache answers "Flag is your own" while the cold cache
answers "Flag is invalid or too old.". -/
theorem c9_cold_cache_differs :
    let frow : FlagRow :=
      { id := 7, flag := "FLAG00", team_id := 1, task_id := 1, round := 2,
        public_flag_data := "1", private_flag_data := "aa", vuln_number := 1 }
    let db : AttackDB := { teamtasks := [], stolenPairs := [], flags := [frow] }
    let warm : AttackEnv :=
      { current_round := 2, max_round := 0, flag_lifetime := 5,
        volga_attacks_mode := false,
        cache := fun s =>
          if s = "FLAG00" then
            some { id := 7, team_id := 1, task_id := 1, flag := "FLAG00",
                   round := 2, public_flag_data := "1" }
          else none }
    let cold : AttackEnv := { warm with cache := fun _ => none }
    db.flags.any (fun f => f.flag == "FLAG00") = true ∧
    (handle_attack warm db 1 "FLAG00").1.message = "Flag is your own" ∧
    (handle_attack cold db 1 "FLAG00").1.message = "Flag is invalid or too old." ∧
    (handle_attack warm db 1 "FLAG00").1.message ≠
      (handle_attack cold db 1 "FLAG00").1.message := by
  refine ⟨rfl, rfl, rfl, ?_⟩
  decide

/-- C9 amended: the flag lookup is served exclusively by the k/v cache.
Whenever the cache misses — regardless of what the authoritative `flags`
table contains — a submission that passes the game guards is rejected with
"Flag is invalid or too old." and the database is left unchanged. -/
theorem c9_cache_miss_rejected (env : AttackEnv) (db : AttackDB)
    (attacker : Int) (fstr : String)
    (hr : env.current_round ≠ -1)
    (hf : ¬(env.max_round ≠ 0 ∧ env.current_round > env.max_round))
    (hc : env.cache fstr = none) :
    handle_attack env db attacker fstr =
      ({ submit_ok := false, message := "Flag is invalid or too old.",
         attacker_id := attacker, victim_id := none, task_id := none,
         attacker_delta := 0, victim_delta := 0 }, db) := by
  unfold handle_attack
  rw [if_neg hr, if_neg hf, hc]

/-- Witness for `c9_cache_miss_rejected` on an everywhere-cold cache. -/
theorem c9_cache_miss_rejected_witness :
    handle_attack
        { current_round := 2, max_round := 0, flag_lifetime := 5,
          volga_attacks_mode := false, cache := fun _ => none }
        { teamtasks := [], stolenPairs := [], flags := [] } 1 "FLAG00" =
      ({ submit_ok := false, message := "Flag is invalid or too old.",
         attacker_id := 1, victim_id := none, task_id := none,
         attacker_delta := 0, victim_delta := 0 },
       { teamtasks := [], stolenPairs := [], flags := [] }) :=
  c9_cache_miss_rejected _ _ 1 "FLAG00" (by decide) (by decide) rfl

/-- C4 counterexample: the claim says a PUT whose wait for CHECK timed out
skips the checker.  In the code the guard is `if check_status in [110, 104]`
and the timeout value is Python `None`, which does not match, so the PUT
proceeds: it runs the checker and creates a flag. -/
theorem c4_timeout_runs_checker :
    let o := put_action none freshTeamTask 1 1 5 3 0
      (List.replicate 16 (0 : Fin 256)) (List.replicate 32 (0 : Fin 256)) 42
      { statusName := "UP", publicMsg := "ok", privateMsg := "" }
    o.ranChecker = true ∧ o.createdFlag ≠ none ∧ o.result.status ≠ "SKIPPED" := by
  refine ⟨rfl, ?_, ?_⟩ <;> decide

/-- C4 amended: when the CHECK for the pair resolved to 104 or 110 (the
wait returned that code), the PUT skips the checker, creates no flag,
inherits the failing code into `put_status`, increments `put_attempts`,
recomputes the aggregate status and message (matching the §4.2 derivation
of the updated row, since the failing `check_status` dominates), commits,
and returns a SKIPPED result.  A timed-out wait (`None`) instead proceeds
to run the checker. -/
theorem c4_put_skips_on_failed_check (code : Int) (tt : TeamTask)
    (team task round : Int) (places rPlace : Nat) (b16 b32 : List (Fin 256))
    (fid : Int) (v : CheckerVerdict)
    (h : code = 110 ∨ code = 104) (hrow : tt.check_status = code) :
    put_action (some code) tt team task round places rPlace b16 b32 fid v =
      { result :=
          { status := "SKIPPED", publicMsg := "Service down, PUT skipped",
            privateMsg := "CHECK status: " ++ toString code, flag := none }
        tt := put_skip_update tt code "Skipped: CHECK failed"
        createdFlag := none
        ranChecker := false } ∧
    (put_skip_update tt code "Skipped: CHECK failed").put_status = code ∧
    (put_skip_update tt code "Skipped: CHECK failed").put_attempts = tt.put_attempts + 1 ∧
    (put_skip_update tt code "Skipped: CHECK failed").status
        = (compute_overall_status tt.check_status code tt.get_status).1 ∧
    (put_skip_update tt code "Skipped: CHECK failed").public_message
        = (compute_overall_status tt.check_status code tt.get_status).2 := by
  rcases h with rfl | rfl <;>
    exact ⟨by simp [put_action], rfl, rfl,
      by simp [put_skip_update, statusCaseExpr, compute_overall_status, hrow],
      by simp [put_skip_update, messageCaseExpr, compute_overall_status, hrow]⟩

/-- Witness for `c4_put_skips_on_failed_check` with CHECK resolved DOWN. -/
theorem c4_put_skips_on_failed_check_witness :
    put_action (some 104) { freshTeamTask with check_status := 104 } 1 1 5 3 0 [] [] 42
        { statusName := "UP", publicMsg := "", privateMsg := "" } =
      { result :=
          { status := "SKIPPED", publicMsg := "Service down, PUT skipped",
            privateMsg := "CHECK status: " ++ toString (104 : Int), flag := none }
        tt := put_skip_update { freshTeamTask with check_status := 104 } 104
                "Skipped: CHECK failed"
        createdFlag := none
        ranChecker := false } ∧
    (put_skip_update { freshTeamTask with check_status := 104 } 104
        "Skipped: CHECK failed").put_status = 104 :=
  let h := c4_put_skips_on_failed_check 104 { freshTeamTask with check_status := 104 }
    1 1 5 3 0 [] [] 42 { statusName := "UP", publicMsg := "", privateMsg := "" }
    (Or.inr rfl) rfl
  ⟨h.1, h.2.1⟩

/-- The hex encoding of `n` bytes has `2 n` characters. -/
theorem hexChars_length (bs : List (Fin 256)) : (hexChars bs).length = 2 * bs.length := by
  induction bs with
  | nil => rfl
  | cons b t ih => simp [hexChars, List.flatMap_cons] at ih ⊢; omega

/-- Every character `hexDigitChar` produces for a nibble is a lower-case
hex digit. -/
theorem isHexChar_hexDigitChar (n : Nat) (h : n < 16) :
    isHexChar (hexDigitChar n) = true := by
  interval_cases n <;> decide

/-- Every character of a byte-string hex encoding is a hex digit. -/
theorem hexChars_all_hex (bs : List (Fin 256)) :
    (hexChars bs).all isHexChar = true := by
  induction bs with
  | nil => rfl
  | cons b t ih =>
    have h1 : b.val / 16 < 16 := Nat.div_lt_of_lt_mul (by omega)
    have h2 : b.val % 16 < 16 := Nat.mod_lt _ (by omega)
    simp only [hexChars, List.flatMap_cons, List.all_append, List.all_cons, List.all_nil]
    simp [isHexChar_hexDigitChar _ h1, isHexChar_hexDigitChar _ h2]
    simpa [hexChars] using ih

/-- C5 counterexample: the claim says a generated flag equals the
*configured* `flag_prefix` plus 32 hex characters.  The code hardcodes the
literal `"FLAG"` (`flag_str = f"FLAG{secrets.token_hex(16)}"`), ignoring
`GameConfig.flag_prefix`; with a configured prefix of `"CTF"` the generated
flag does not match the spec's format for that prefix. -/
theorem c5_prefix_hardcoded :
    let o := put_action (some 101) freshTeamTask 1 1 5 3 0
      (List.replicate 16 (0 : Fin 256)) (List.replicate 32 (0 : Fin 256)) 7
      { statusName := "UP", publicMsg := "ok", privateMsg := "" }
    (o.createdFlag.map (fun f => spec_flag_format "CTF" f.flag)) = some false ∧
    (o.createdFlag.map (fun f => spec_flag_format "FLAG" f.flag)) = some true := by
  exact ⟨by decide, by decide⟩

/-- C5 amended: every flag generated by a non-skipped PUT equals the
literal string `"FLAG"` (not the configured `flag_prefix`) followed by 32
hex characters (16 random bytes in hex); its `public_flag_data` is the
decimal string of an integer in `[1, task.places]`, its
`private_flag_data` is 64 hex characters (32 random bytes), and its
`vuln_number` is 1. -/
theorem c5_generated_flag_format (checkStatus : Option Int) (tt : TeamTask)
    (team task round : Int) (places rPlace : Nat) (b16 b32 : List (Fin 256))
    (fid : Int) (v : CheckerVerdict)
    (hcs : ¬(checkStatus = some 110 ∨ checkStatus = some 104))
    (h16 : b16.length = 16) (h32 : b32.length = 32) (hpl : 1 ≤ places) :
    ∃ f : FlagRow,
      (put_action checkStatus tt team task round places rPlace b16 b32 fid v).createdFlag
          = some f ∧
      f.flag = "FLAG" ++ tokenHex b16 ∧
      spec_flag_format "FLAG" f.flag = true ∧
      (∃ n : Nat, f.public_flag_data = toString n ∧ 1 ≤ n ∧ n ≤ places) ∧
      f.private_flag_data.length = 64 ∧
      f.vuln_number = 1 := by
  refine ⟨{ id := fid, flag := "FLAG" ++ tokenHex b16, team_id := team,
            task_id := task, round := round,
            public_flag_data := toString (choicePlace places rPlace),
            private_flag_data := tokenHex b32, vuln_number := 1 },
    by simp [put_action, hcs], rfl, ?_, ?_, ?_, rfl⟩
  · show spec_flag_format "FLAG" ("FLAG" ++ tokenHex b16) = true
    have hlist : ("FLAG" ++ tokenHex b16).toList = "FLAG".toList ++ hexChars b16 := rfl
    simp only [spec_flag_format, hlist]
    rw [List.take_left, List.drop_left]
    simp [hexChars_length, h16, hexChars_all_hex]
  · exact ⟨choicePlace places rPlace, rfl, Nat.le_add_right 1 _, by
      have := Nat.mod_lt rPlace (show 0 < places by omega)
      simp [choicePlace]; omega⟩
  · show (tokenHex b32).length = 64
    show (hexChars b32).length = 64
    rw [hexChars_length, h32]

/-- Witness for `c5_generated_flag_format` on a concrete byte draw. -/
theorem c5_generated_flag_format_witness :
    ∃ f : FlagRow,
      (put_action (some 101) freshTeamTask 1 1 5 3 5
          (List.replicate 16 (0 : Fin 256)) (List.replicate 32 (1 : Fin 256)) 7
          { statusName := "UP", publicMsg := "ok", privateMsg := "" }).createdFlag
          = some f ∧
      f.flag = "FLAG" ++ tokenHex (List.replicate 16 (0 : Fin 256)) ∧
      spec_flag_format "FLAG" f.flag = true ∧
      (∃ n : Nat, f.public_flag_data = toString n ∧ 1 ≤ n ∧ n ≤ 3) ∧
      f.private_flag_data.length = 64 ∧
      f.vuln_number = 1 :=
  c5_generated_flag_format (some 101) freshTeamTask 1 1 5 3 5
    (List.replicate 16 (0 : Fin 256)) (List.replicate 32 (1 : Fin 256)) 7
    { statusName := "UP", publicMsg := "ok", privateMsg := "" }
    (by decide) (by decide) (by decide) (by decide)

/-- The GET loop of `submit_round_jobs` never enqueues a job: an iteration
either finds no candidate (and skips) or finds one and raises the
`TypeError` before `submit_get_job` runs. -/
theorem gets_loop_no_jobs (flags : List FlagRow) (lt R : Int)
    (rand : Int → Int → Nat → Nat) (team_id task_id : Int) (l : List Nat) :
    (gets_loop flags lt R rand team_id task_id l).1 = [] := by
  induction l with
  | nil => rfl
  | cons i rest ih =>
    unfold gets_loop
    split
    · rfl
    · exact ih

/-- A GET loop iterated at least once over a nonempty candidate set raises
the `TypeError` on its first iteration. -/
theorem gets_loop_errors (flags : List FlagRow) (lt R : Int)
    (rand : Int → Int → Nat → Nat) (team_id task_id : Int) (i : Nat) (l : List Nat)
    (h : round_flag_candidates flags team_id task_id (max 1 (R - lt)) R ≠ []) :
    (gets_loop flags lt R rand team_id task_id (i :: l)).2 = true := by
  have hlen : 0 < (round_flag_candidates flags team_id task_id (max 1 (R - lt)) R).length :=
    List.length_pos.mpr h
  have hmod := Nat.mod_lt (rand team_id task_id i) hlen
  unfold gets_loop get_random_round_flag
  rw [List.get?_eq_get hmod]

/-- C6: the claim says each of a task's `gets` GET jobs is enqueued with a
randomly chosen in-window flag id whenever such a flag exists.  This FAILS:
`get_random_round_flag` returns a `Flag` ORM entity, and
`job_submitter.py` subscripts it (`flag_data['id']`), raising
`TypeError: 'Flag' object is not subscriptable`, which the per-pair
`except` swallows (incrementing `stats["errors"]`).  First conjunct: no GET
job ever appears in any submitted round, for any inputs.  The remaining
conjuncts evaluate the code at the failing input — one active team, one
active task with `gets = 2`, and one candidate flag in the window: the pair
gets only its CHECK and PUT jobs, the error counter reads 1, yet a
candidate flag exists. -/
theorem c6_get_jobs_never_enqueued :
    (∀ (teams : List TeamRow) (tasks : List TaskRow) (flags : List FlagRow)
        (lt R : Int) (rand : Int → Int → Nat → Nat) (t k r fid : Int),
      Job.get t k r fid ∉ (submit_round_jobs teams tasks flags lt R rand).1) ∧
    (submit_round_jobs [{ id := 1, active := true }]
        [{ id := 1, puts := 1, gets := 2, active := true }]
        [{ id := 9, flag := "FLAG00", team_id := 1, task_id := 1, round := 3,
           public_flag_data := "1", private_flag_data := "aa", vuln_number := 1 }]
        5 3 (fun _ _ _ => 0)).1 = [Job.check 1 1 3, Job.put 1 1 3] ∧
    (submit_round_jobs [{ id := 1, active := true }]
        [{ id := 1, puts := 1, gets := 2, active := true }]
        [{ id := 9, flag := "FLAG00", team_id := 1, task_id := 1, round := 3,
           public_flag_data := "1", private_flag_data := "aa", vuln_number := 1 }]
        5 3 (fun _ _ _ => 0)).2 = 1 ∧
    round_flag_candidates
        [{ id := 9, flag := "FLAG00", team_id := 1, task_id := 1, round := 3,
           public_flag_data := "1", private_flag_data := "aa", vuln_number := 1 }]
        1 1 (max 1 (3 - 5)) 3 ≠ [] := by
  refine ⟨?_, by decide, by decide, by decide⟩
  intro teams tasks flags lt R rand t k r fid hmem
  unfold submit_round_jobs at hmem
  simp only [List.mem_flatMap] at hmem
  obtain ⟨tm, _, tk, _, hpair⟩ := hmem
  simp only [pair_jobs, gets_loop_no_jobs, List.append_nil] at hpair
  rcases List.mem_cons.mp hpair with hchk | hput
  · exact Job.noConfusion hchk
  · exact Job.noConfusion (List.eq_of_mem_replicate hput)

/-- C10: every `check_action` execution signals completion via the
coordinator exactly once and records exactly one action result, both only
after the database session closes; on the internal-failure paths the
signalled code is 110, on success it is the mapped checker code. -/
theorem c10_check_signal_once (o : CheckOutcome) :
    signalCodes (check_action_trace o) = [checkSignalledCode o] ∧
    recordCodes (check_action_trace o) = [checkSignalledCode o] ∧
    noSignalBeforeClose (check_action_trace o) = true := by
  cases o <;> exact ⟨rfl, rfl, rfl⟩

end ADArena
